import Mathlib

/-!
Verification of the InVEST ui_server Flask app (src/src/natcap/invest/ui_server.py)
against its natural-language specification.

The handlers are shallowly embedded: JSON values are an inductive type,
Python exceptions become an `Except Err` result, and the external
collaborators (the CLI model registry, importlib, json.loads, GDAL,
delineateit) are oracle functions collected in an `Env` structure, since
their code is outside this repository.  The datastack serializer/parser
(natcap.invest.datastack, part of the package but not under src/) is
modelled from the spec where needed.
-/

namespace UiServer

/-- JSON values as Python's json module produces them.  Numbers are modelled
as integers: no claim involves fractional numbers. -/
inductive Json where
  | null : Json
  | bool (b : Bool) : Json
  | num (n : Int) : Json
  | str (s : String) : Json
  | arr (items : List Json) : Json
  | obj (fields : List (String × Json)) : Json
deriving Repr

/-- Python exceptions the handlers raise, catch or propagate, abstracted to
the three kinds the claims distinguish. -/
inductive Err where
  | keyError (k : String) : Err
  | typeError (msg : String) : Err
  | external (msg : String) : Err
deriving Repr, DecidableEq

/-- Python `d[k]` on a dict represented as an association list with unique
keys: the value, or KeyError. -/
def dictGet {α : Type} (d : List (String × α)) (k : String) : Except Err α :=
  match d.find? (fun p => p.1 == k) with
  | some p => Except.ok p.2
  | none => Except.error (Err.keyError k)

/-- Python dict insertion: replace the binding in place when the key exists,
append otherwise (dict-comprehension entries written later win). -/
def dictInsert {α : Type} (d : List (String × α)) (k : String) (v : α) :
    List (String × α) :=
  match d with
  | [] => [(k, v)]
  | (k0, v0) :: rest =>
    if k0 == k then (k, v) :: rest else (k0, v0) :: dictInsert rest k v

/-- Python `payload[key]` subscripting on a JSON value: KeyError when the key
is missing from an object, TypeError when the value is not an object. -/
def Json.getItem (j : Json) (k : String) : Except Err Json :=
  match j with
  | Json.obj fields => dictGet fields k
  | _ => Except.error (Err.typeError "not subscriptable")

/-- Python truthiness of a JSON value (`if vector_path:`). -/
def Json.truthy : Json → Bool
  | Json.null => false
  | Json.bool b => b
  | Json.num n => n != 0
  | Json.str s => !(s == "")
  | Json.arr items => !items.isEmpty
  | Json.obj fields => !fields.isEmpty

/-- Coerce a JSON value to the Python str that a library call expects;
passing a non-string makes that call raise TypeError, which propagates. -/
def Json.asString : Json → Except Err String
  | Json.str s => Except.ok s
  | _ => Except.error (Err.typeError "expected a string")

/-- Escaping of one character inside a json.dumps string. -/
def jsonEscapeChar (c : Char) : String :=
  if c = '"' then "\\\""
  else if c = '\\' then "\\\\"
  else if c = '\n' then "\\n"
  else if c = '\t' then "\\t"
  else if c = '\r' then "\\r"
  else String.singleton c

/-- Escaping of a string for json.dumps output. -/
def jsonEscape (s : String) : String :=
  String.join (s.toList.map jsonEscapeChar)

/-- Comma-space separated concatenation, as json.dumps uses between items. -/
def joinComma : List String → String
  | [] => ""
  | [x] => x
  | x :: rest => x ++ ", " ++ joinComma rest

mutual

/-- Python json.dumps with its default separators. -/
def jsonDumps : Json → String
  | Json.null => "null"
  | Json.bool true => "true"
  | Json.bool false => "false"
  | Json.num n => toString n
  | Json.str s => "\"" ++ jsonEscape s ++ "\""
  | Json.arr items => "[" ++ joinComma (jsonDumpsList items) ++ "]"
  | Json.obj fields => "\x7b" ++ joinComma (jsonDumpsFields fields) ++ "\x7d"

/-- json.dumps of the items of an array. -/
def jsonDumpsList : List Json → List String
  | [] => []
  | j :: rest => jsonDumps j :: jsonDumpsList rest

/-- json.dumps of the key/value pairs of an object. -/
def jsonDumpsFields : List (String × Json) → List String
  | [] => []
  | (k, v) :: rest =>
    ("\"" ++ jsonEscape k ++ "\": " ++ jsonDumps v) :: jsonDumpsFields rest

end

/-- An imported InVEST model module, as reached through importlib: its
ARGS_SPEC structure and its validate function (taking the args mapping and
the limit_to value, Json.null standing for Python None). -/
structure Module where
  args_spec : Json
  validate : Json → Json → Except Err Json

/-- One value of the external registry natcap.invest.cli._MODEL_UIS: a model
key maps to its python module name and its human-readable name. -/
structure ModelUIMeta where
  pyname : String
  humanname : String
deriving Repr, DecidableEq

/-- The _UI_META namedtuple of ui_server.py: (run_name, human_name). -/
structure UIMeta where
  run_name : String
  human_name : String
deriving Repr, DecidableEq

/-- The process environment: the external collaborators the server calls
into, modelled as oracles because their code is outside this repository,
plus the library version and the current date string. -/
structure Env where
  model_uis : List (String × ModelUIMeta)
  import_module : String → Except Err Module
  json_loads : String → Except Err Json
  gdal_colnames : Json → Except Err (List String)
  vector_may_contain_points : Json → Except Err Bool
  build_model_list_json : String
  invest_version : String
  today : String

/-- MODULE_MODELRUN_MAP, built once at process start from _MODEL_UIS: each
module pyname maps to the UIMeta (run_name = the registry key, human_name). -/
def MODULE_MODELRUN_MAP (model_uis : List (String × ModelUIMeta)) :
    List (String × UIMeta) :=
  model_uis.foldl (fun d kv => dictInsert d kv.2.pyname ⟨kv.1, kv.2.humanname⟩) []

/-- GET /ready: get_is_ready returns a fixed string. -/
def get_is_ready : String := "Flask ready"

/-- GET /models: get_invest_models returns the library's model list JSON. -/
def get_invest_models (env : Env) : String := env.build_model_list_json

/-- POST /getspec: get_invest_getspec.  The body is the model key string;
the key is looked up in _MODEL_UIS (KeyError propagates), the module is
imported (errors propagate) and its ARGS_SPEC is returned as JSON. -/
def get_invest_getspec (env : Env) (target_model : String) : Except Err String := do
  let meta ← dictGet env.model_uis target_model
  let model_module ← env.import_module meta.pyname
  return jsonDumps model_module.args_spec

/-- POST /validate: get_invest_validate.  Reads model_module and args from
the payload, JSON-parses args, reads limit_to catching only KeyError
(defaulting to None), imports the module and calls its validate function;
every other exception propagates. -/
def get_invest_validate (env : Env) (payload : Json) : Except Err String := do
  let tmField ← payload.getItem "model_module"
  let argsField ← payload.getItem "args"
  let argsStr ← argsField.asString
  let args_dict ← env.json_loads argsStr
  let limit_to ← match payload.getItem "limit_to" with
    | Except.ok v => pure v
    | Except.error (Err.keyError _) => pure Json.null
    | Except.error e => Except.error e
  let target_module ← tmField.asString
  let model_module ← env.import_module target_module
  let results ← model_module.validate args_dict limit_to
  return jsonDumps results

/-- POST /colnames: get_vector_colnames.  The vector_path lookup happens
before the guard; the guard skips an untruthy path and swallows any failure
of the GDAL open/schema read, defaulting to the empty list. -/
def get_vector_colnames (env : Env) (payload : Json) : Except Err String := do
  let vector_path ← payload.getItem "vector_path"
  let colnames : List String :=
    if vector_path.truthy then
      match env.gdal_colnames vector_path with
      | Except.ok names => names
      | Except.error _ => []
    else []
  return jsonDumps (Json.obj [("colnames", Json.arr (colnames.map Json.str))])

/-- POST /vector_has_points: get_vector_has_points.  Same guard shape as
get_vector_colnames with the inverted default: true. -/
def get_vector_has_points (env : Env) (payload : Json) : Except Err String := do
  let vector_path ← payload.getItem "vector_path"
  let has_points : Bool :=
    if vector_path.truthy then
      match env.vector_may_contain_points vector_path with
      | Except.ok b => b
      | Except.error _ => true
    else true
  return jsonDumps (Json.obj [("has_points", Json.bool has_points)])

/-- One datastack file on disk, as the spec describes the format: a
serialized bundle of model arguments plus metadata. -/
structure DatastackFile where
  model_name : String
  args : Json
  invest_version : String

/-- The files the datastack serializer has written, path → content. -/
structure FS where
  files : List (String × DatastackFile)

/-- Modelled from the spec: natcap.invest.datastack.build_parameter_set is
part of the package but not under src/.  Per the spec it "delegates to the
external serializer to persist arguments to disk" and round-trips with the
parser, so it stores the argument mapping, module name and tool version at
the given path. -/
def build_parameter_set (fs : FS) (args : Json) (modulename : String)
    (filepath : String) (relative : Bool) (version : String) : FS :=
  ⟨dictInsert fs.files filepath ⟨modulename, args, version⟩⟩

/-- Modelled from the spec: natcap.invest.datastack.get_datastack_info is
part of the package but not under src/.  Per the spec it parses a
datastack/parameter-set file into its type, argument mapping, model name
and tool version, and fails when the file cannot be parsed (here: when no
datastack file is at the path). -/
def get_datastack_info (fs : FS) (filepath : String) :
    Except Err (String × DatastackFile) :=
  match dictGet fs.files filepath with
  | Except.ok f => Except.ok ("json", f)
  | Except.error _ => Except.error (Err.external "could not parse datastack file")

/-- POST /post_datastack_file: parse the file, look the model name up in
MODULE_MODELRUN_MAP (KeyError propagates) and return the composite object. -/
def post_datastack_file (registry : List (String × UIMeta)) (fs : FS)
    (filepath : String) : Except Err String := do
  let info ← get_datastack_info fs filepath
  let meta ← dictGet registry info.2.model_name
  let result_dict := Json.obj [
    ("type", Json.str info.1),
    ("args", info.2.args),
    ("module_name", Json.str info.2.model_name),
    ("model_run_name", Json.str meta.run_name),
    ("model_human_name", Json.str meta.human_name),
    ("invest_version", Json.str info.2.invest_version)]
  return jsonDumps result_dict

/-- POST /write_parameter_set_file: read the four payload fields, JSON-parse
args and delegate to the serializer; returns the new disk state and the
confirmation string, any exception propagating. -/
def write_parameter_set_file (env : Env) (fs : FS) (payload : Json) :
    Except Err (FS × String) := do
  let fpField ← payload.getItem "parameterSetPath"
  let filepath ← fpField.asString
  let mnField ← payload.getItem "moduleName"
  let modulename ← mnField.asString
  let argsField ← payload.getItem "args"
  let argsStr ← argsField.asString
  let args ← env.json_loads argsStr
  let rpField ← payload.getItem "relativePaths"
  let fs2 := build_parameter_set fs args modulename filepath rpField.truthy
    env.invest_version
  return (fs2, "parameter set saved")

/-- Python repr of a string as pprint renders the handlers' data: single
quotes around the characters (the inputs exercised here contain no quote or
backslash characters, so no escaping arises). -/
def pyReprStr (s : String) : String :=
  "'" ++ s ++ "'"

mutual

/-- Python repr of the JSON-derived values an args mapping can contain. -/
def pyRepr : Json → String
  | Json.null => "None"
  | Json.bool true => "True"
  | Json.bool false => "False"
  | Json.num n => toString n
  | Json.str s => pyReprStr s
  | Json.arr items => "[" ++ joinComma (pyReprList items) ++ "]"
  | Json.obj fields => "\x7b" ++ joinComma (pyReprFields fields) ++ "\x7d"

/-- repr of the items of a list. -/
def pyReprList : List Json → List String
  | [] => []
  | j :: rest => pyRepr j :: pyReprList rest

/-- repr of the key/value pairs of a dict (insertion order, as Python repr). -/
def pyReprFields : List (String × Json) → List String
  | [] => []
  | (k, v) :: rest => (pyReprStr k ++ ": " ++ pyRepr v) :: pyReprFields rest

end

/-- Insert a pair into a list sorted by key (string comparison, as Python
sorts dict items in pprint). -/
def insertByKey (kv : String × Json) :
    List (String × Json) → List (String × Json)
  | [] => [kv]
  | x :: xs => if kv.1 < x.1 then kv :: x :: xs else x :: insertByKey kv xs

/-- Sort dict items by key, as pprint does before formatting. -/
def sortByKey (d : List (String × Json)) : List (String × Json) :=
  d.foldr insertByKey []

/-- Modelled from Python's pprint.pformat with indent=4, in the regime the
server hits for its argument mappings: when the single-line form fits
pprint's default 80-column width, pformat returns the dict's repr with the
items sorted by key; pformat of the empty dict is the two brace
characters.  Non-dict values format as their repr. -/
def pformat : Json → String
  | Json.obj fields =>
    "\x7b" ++ joinComma (pyReprFields (sortByKey fields)) ++ "\x7d"
  | v => pyRepr v

/-- Python str.replace for a single-character pattern (the only shape
save_to_python uses): every occurrence of the character is replaced. -/
def charReplace (s : String) (c : Char) (r : String) : String :=
  String.join (s.toList.map (fun ch => if ch = c then r else String.singleton ch))

/-- The argument-rendering pipeline of save_to_python: pprint.pformat, then
the two global replacements (every open brace gains a newline-space, every
close brace gains a preceding comma-newline). -/
def renderScriptArgs (args_dict : Json) : String :=
  charReplace (charReplace (pformat args_dict) '\x7b' "\x7b\n ") '\x7d' ",\n\x7d"

/-- The script template of save_to_python after textwrap.dedent, as a
function of its format fields. -/
def script_template (invest_version today modelname py_model model_args : String) :
    String :=
  "# coding=UTF-8\n" ++
  "# -----------------------------------------------\n" ++
  "# Generated by InVEST " ++ invest_version ++ " on " ++ today ++ "\n" ++
  "# Model: " ++ modelname ++ "\n" ++
  "\n" ++
  "import " ++ py_model ++ "\n" ++
  "\n" ++
  "args = " ++ model_args ++ "\n" ++
  "\n" ++
  "if __name__ == '__main__':\n" ++
  "    " ++ py_model ++ ".execute(args)\n"

/-- POST /save_to_python: read the payload fields, JSON-parse args, render
the script from the template and write it to the filepath.  The written
scripts are modelled as a path → text mapping. -/
def save_to_python (env : Env) (scripts : List (String × String))
    (payload : Json) : Except Err (List (String × String) × String) := do
  let fpField ← payload.getItem "filepath"
  let save_filepath ← fpField.asString
  let mnField ← payload.getItem "modelname"
  let modelname ← mnField.asString
  let pnField ← payload.getItem "pyname"
  let pyname ← pnField.asString
  let argsField ← payload.getItem "args"
  let argsStr ← argsField.asString
  let args_dict ← env.json_loads argsStr
  let script := script_template env.invest_version env.today modelname pyname
    (renderScriptArgs args_dict)
  return (dictInsert scripts save_filepath script, "python script saved")

/-- The mutable state of the running server process: the registry built at
startup, the datastack files on disk, and the generated python scripts. -/
structure ServerState where
  registry : List (String × UIMeta)
  fs : FS
  scripts : List (String × String)

/-- The state at process start: MODULE_MODELRUN_MAP freshly built from the
external registry, over whatever files the disk already holds. -/
def initState (env : Env) (fs : FS) (scripts : List (String × String)) :
    ServerState :=
  ⟨MODULE_MODELRUN_MAP env.model_uis, fs, scripts⟩

/-- One HTTP request to the server's routes, after Flask's body parsing. -/
inductive Request where
  | ready : Request
  | models : Request
  | getspec (target_model : String) : Request
  | validate (payload : Json) : Request
  | colnames (payload : Json) : Request
  | vector_has_points (payload : Json) : Request
  | datastack_file (filepath : String) : Request
  | parameter_set (payload : Json) : Request
  | to_python (payload : Json) : Request

/-- Dispatch one request: the response (or the propagated error) and the
state afterwards. -/
def handleRequest (env : Env) (st : ServerState) :
    Request → Except Err String × ServerState
  | Request.ready => (Except.ok get_is_ready, st)
  | Request.models => (Except.ok (get_invest_models env), st)
  | Request.getspec m => (get_invest_getspec env m, st)
  | Request.validate p => (get_invest_validate env p, st)
  | Request.colnames p => (get_vector_colnames env p, st)
  | Request.vector_has_points p => (get_vector_has_points env p, st)
  | Request.datastack_file fp => (post_datastack_file st.registry st.fs fp, st)
  | Request.parameter_set p =>
    match write_parameter_set_file env st.fs p with
    | Except.ok (fs2, resp) => (Except.ok resp, { st with fs := fs2 })
    | Except.error e => (Except.error e, st)
  | Request.to_python p =>
    match save_to_python env st.scripts p with
    | Except.ok (scripts2, resp) => (Except.ok resp, { st with scripts := scripts2 })
    | Except.error e => (Except.error e, st)

/-- Run a sequence of requests from a state. -/
def runRequests (env : Env) (st : ServerState) : List Request → ServerState
  | [] => st
  | r :: rest => runRequests env (handleRequest env st r).2 rest

/-- Values of the Python-literal subset that rendered argument mappings
contain (spec: "content equivalence" of the generated script's mapping). -/
inductive PyVal where
  | none : PyVal
  | bool (b : Bool) : PyVal
  | int (n : Int) : PyVal
  | str (s : String) : PyVal
deriving Repr, DecidableEq

/-- Drop leading Python whitespace. -/
def dropWs : List Char → List Char
  | [] => []
  | c :: rest =>
    if c = ' ' || c = '\n' || c = '\t' || c = '\r' then dropWs rest else c :: rest

/-- Read a single-quoted string body up to its closing quote (the subset
pformat emits for the data exercised here: no escape sequences). -/
def takeStrBody : List Char → Option (String × List Char)
  | [] => Option.none
  | c :: rest =>
    if c = '\'' then Option.some ("", rest)
    else match takeStrBody rest with
      | Option.some (s, r) => Option.some (String.singleton c ++ s, r)
      | Option.none => Option.none

/-- Split a leading run of decimal digits from the rest. -/
def takeDigits : List Char → List Char × List Char
  | [] => ([], [])
  | c :: rest =>
    if c.isDigit then
      let p := takeDigits rest
      (c :: p.1, p.2)
    else ([], c :: rest)

/-- Numeric value of a digit run. -/
def digitsToNat (ds : List Char) : Nat :=
  ds.foldl (fun acc c => acc * 10 + (c.toNat - 48)) 0

/-- Read a nonempty digit run as a number. -/
def takeNat (cs : List Char) : Option (Nat × List Char) :=
  match takeDigits cs with
  | ([], _) => Option.none
  | (ds, r) => Option.some (digitsToNat ds, r)

/-- Read one Python literal of the subset: string, True, False, None, int. -/
def parsePyValue : List Char → Option (PyVal × List Char)
  | '\'' :: rest => (takeStrBody rest).map (fun p => (PyVal.str p.1, p.2))
  | 'T' :: 'r' :: 'u' :: 'e' :: rest => Option.some (PyVal.bool true, rest)
  | 'F' :: 'a' :: 'l' :: 's' :: 'e' :: rest => Option.some (PyVal.bool false, rest)
  | 'N' :: 'o' :: 'n' :: 'e' :: rest => Option.some (PyVal.none, rest)
  | '-' :: rest => (takeNat rest).map (fun p => (PyVal.int (-(p.1 : Int)), p.2))
  | cs => (takeNat cs).map (fun p => (PyVal.int (p.1 : Int), p.2))

/-- Read one `'key': value` item. -/
def parsePyItem (cs : List Char) : Option ((String × PyVal) × List Char) :=
  match dropWs cs with
  | '\'' :: rest =>
    match takeStrBody rest with
    | Option.some (key, r1) =>
      match dropWs r1 with
      | ':' :: r2 =>
        match parsePyValue (dropWs r2) with
        | Option.some (v, r3) => Option.some ((key, v), r3)
        | Option.none => Option.none
      | _ => Option.none
    | Option.none => Option.none
  | _ => Option.none

/-- After one item: a closing brace, or a comma followed by a closing brace
(Python allows the trailing comma) or by the next item. -/
def parsePyItemsMore : Nat → List Char → Option (List (String × PyVal) × List Char)
  | 0, _ => Option.none
  | fuel + 1, cs =>
    match dropWs cs with
    | '}' :: rest => Option.some ([], rest)
    | ',' :: rest =>
      match dropWs rest with
      | '}' :: r2 => Option.some ([], r2)
      | r2 =>
        match parsePyItem r2 with
        | Option.some (kv, r3) =>
          (parsePyItemsMore fuel r3).map (fun p => (kv :: p.1, p.2))
        | Option.none => Option.none
    | _ => Option.none

/-- Evaluate a Python dict display of the subset the generated scripts use:
the mapping it denotes, or Option.none when the text is not a well-formed
dict literal (a syntax error in the generated script). -/
def parsePyDict (s : String) : Option (List (String × PyVal)) :=
  match dropWs s.toList with
  | '{' :: rest =>
    let body :=
      match dropWs rest with
      | '}' :: r2 => Option.some (([] : List (String × PyVal)), r2)
      | r2 =>
        match parsePyItem r2 with
        | Option.some (kv, r3) =>
          (parsePyItemsMore (s.length + 1) r3).map (fun p => (kv :: p.1, p.2))
        | Option.none => Option.none
    match body with
    | Option.some (items, r) =>
      if (dropWs r).isEmpty then Option.some items else Option.none
    | Option.none => Option.none
  | _ => Option.none

/-- The JSON content of a supplied argument mapping, as the Python values the
generated script would have to denote for content equivalence. -/
def toPyVal : Json → Option PyVal
  | Json.null => Option.some PyVal.none
  | Json.bool b => Option.some (PyVal.bool b)
  | Json.num n => Option.some (PyVal.int n)
  | Json.str s => Option.some (PyVal.str s)
  | _ => Option.none

/-- A concrete sample environment with one registered model, used to
instantiate the theorems at concrete inputs. -/
def carbonModule : Module :=
  ⟨Json.obj [("model_name", Json.str "carbon")], fun _ _ => Except.ok (Json.arr [])⟩

/-- The sample external registry entry. -/
def carbonMeta : ModelUIMeta := ⟨"natcap.invest.carbon", "Carbon Storage"⟩

/-- The sample environment. -/
def sampleEnv : Env where
  model_uis := [("carbon", carbonMeta)]
  import_module := fun name =>
    if name == "natcap.invest.carbon" then Except.ok carbonModule
    else Except.error (Err.external "ModuleNotFoundError")
  json_loads := fun s =>
    if s == "\x7b\x7d" then Except.ok (Json.obj [])
    else if s == "\x7b\"a\": 1\x7d" then Except.ok (Json.obj [("a", Json.num 1)])
    else if s == "\x7b\"a\": \"x\x7by\"\x7d" then
      Except.ok (Json.obj [("a", Json.str "x\x7by")])
    else Except.error (Err.external "JSONDecodeError")
  gdal_colnames := fun v =>
    match v with
    | Json.str "fields.shp" => Except.ok ["ws_id", "name"]
    | _ => Except.error (Err.external "could not open vector")
  vector_may_contain_points := fun v =>
    match v with
    | Json.str "lines.shp" => Except.ok false
    | _ => Except.error (Err.external "could not probe geometry")
  build_model_list_json := "[]"
  invest_version := "3.9.0"
  today := "Mon Jan  1 00:00:00 2024"

theorem dictGet_insert_self {α : Type} (d : List (String × α)) (k : String)
    (v : α) : dictGet (dictInsert d k v) k = Except.ok v := by
  induction d with
  | nil => simp [dictInsert, dictGet]
  | cons x rest ih =>
    obtain ⟨k0, v0⟩ := x
    by_cases hx : k0 == k
    · simp [dictInsert, hx, dictGet]
    · simp only [dictInsert, hx, if_false, Bool.false_eq_true]
      simpa [dictGet, List.find?, hx] using ih

theorem get_vector_colnames_eval (env : Env) (payload : Json) (v : Json)
    (hget : payload.getItem "vector_path" = Except.ok v) :
    get_vector_colnames env payload = Except.ok (jsonDumps (Json.obj [("colnames",
      Json.arr ((if v.truthy then
        match env.gdal_colnames v with
        | Except.ok names => names
        | Except.error _ => []
      else []).map Json.str))])) := by
  unfold get_vector_colnames
  rw [hget]
  rfl

theorem get_vector_colnames_propagates (env : Env) (payload : Json) (e : Err)
    (hget : payload.getItem "vector_path" = Except.error e) :
    get_vector_colnames env payload = Except.error e := by
  unfold get_vector_colnames
  rw [hget]
  rfl

theorem get_vector_has_points_eval (env : Env) (payload : Json) (v : Json)
    (hget : payload.getItem "vector_path" = Except.ok v) :
    get_vector_has_points env payload = Except.ok (jsonDumps (Json.obj [("has_points",
      Json.bool (if v.truthy then
        match env.vector_may_contain_points v with
        | Except.ok b => b
        | Except.error _ => true
      else true))])) := by
  unfold get_vector_has_points
  rw [hget]
  rfl

theorem get_vector_has_points_propagates (env : Env) (payload : Json) (e : Err)
    (hget : payload.getItem "vector_path" = Except.error e) :
    get_vector_has_points env payload = Except.error e := by
  unfold get_vector_has_points
  rw [hget]
  rfl

theorem handleRequest_registry (env : Env) (st : ServerState) (r : Request) :
    ((handleRequest env st r).2).registry = st.registry := by
  cases r with
  | parameter_set p =>
    simp only [handleRequest]
    cases write_parameter_set_file env st.fs p with
    | ok v => rfl
    | error e => rfl
  | to_python p =>
    simp only [handleRequest]
    cases save_to_python env st.scripts p with
    | ok v => rfl
    | error e => rfl
  | _ => rfl

theorem runRequests_registry (env : Env) (st : ServerState)
    (reqs : List Request) : (runRequests env st reqs).registry = st.registry := by
  induction reqs generalizing st with
  | nil => rfl
  | cons r rest ih =>
    calc (runRequests env st (r :: rest)).registry
        = ((handleRequest env st r).2).registry := ih _
      _ = st.registry := handleRequest_registry env st r

/-- C10: for every server state, the health route responds with the fixed
string and leaves the state unchanged (no side effect). -/
theorem c10_ready_fixed_response (env : Env) (st : ServerState) :
    handleRequest env st Request.ready = (Except.ok "Flask ready", st) ∧
    get_is_ready = "Flask ready" :=
  ⟨rfl, rfl⟩

/-- C8: the module registry is built exactly once, at process start, from
the external library's registry, and no sequence of requests ever changes
it: after any request sequence the registry every lookup observes still
equals MODULE_MODELRUN_MAP of the startup registry. -/
theorem c8_registry_built_once_never_mutated (env : Env) (fs : FS)
    (scripts : List (String × String)) (reqs : List Request) :
    (initState env fs scripts).registry = MODULE_MODELRUN_MAP env.model_uis ∧
    (runRequests env (initState env fs scripts) reqs).registry =
      MODULE_MODELRUN_MAP env.model_uis :=
  ⟨rfl, runRequests_registry env (initState env fs scripts) reqs⟩

/-- C2: every colnames request carrying a vector_path field gets an ok
response of the shape colnames ↦ list of strings; on the empty-string path
the result is the empty list whatever the GDAL oracle does (no file is
opened); and whenever opening/reading the vector fails the result is the
empty list with no error propagated. -/
theorem c2_colnames_best_effort (env : Env) (payload : Json) (v : Json)
    (hget : payload.getItem "vector_path" = Except.ok v) :
    (∃ L : List String, get_vector_colnames env payload =
      Except.ok (jsonDumps (Json.obj [("colnames", Json.arr (L.map Json.str))]))) ∧
    (v = Json.str "" → ∀ env2 : Env, get_vector_colnames env2 payload =
      Except.ok (jsonDumps (Json.obj [("colnames", Json.arr ([].map Json.str))]))) ∧
    (∀ e : Err, env.gdal_colnames v = Except.error e →
      get_vector_colnames env payload =
        Except.ok (jsonDumps (Json.obj [("colnames", Json.arr ([].map Json.str))]))) := by
  refine ⟨⟨_, get_vector_colnames_eval env payload v hget⟩, ?_, ?_⟩
  · rintro rfl env2
    exact get_vector_colnames_eval env2 payload (Json.str "") hget
  · intro e he
    have h := get_vector_colnames_eval env payload v hget
    rw [he] at h
    cases hv : v.truthy
    · rw [hv] at h
      simpa using h
    · rw [hv] at h
      simpa using h

/-- C2 witness: empty path on the sample environment. -/
theorem c2_colnames_witness :
    get_vector_colnames sampleEnv (Json.obj [("vector_path", Json.str "")]) =
      Except.ok (jsonDumps (Json.obj [("colnames", Json.arr [])])) :=
  (c2_colnames_best_effort sampleEnv (Json.obj [("vector_path", Json.str "")])
    (Json.str "") rfl).2.1 rfl sampleEnv

/-- C3: every vector_has_points request whose vector_path field is a string
gets has_points = true when the path is empty or the geometry probe fails,
and the probe's boolean otherwise; no error propagates from the probe. -/
theorem c3_has_points_best_effort (env : Env) (payload : Json) (s : String)
    (hget : payload.getItem "vector_path" = Except.ok (Json.str s)) :
    ((s = "" ∨ ∃ e : Err,
        env.vector_may_contain_points (Json.str s) = Except.error e) →
      get_vector_has_points env payload =
        Except.ok (jsonDumps (Json.obj [("has_points", Json.bool true)]))) ∧
    (∀ b : Bool, s ≠ "" →
      env.vector_may_contain_points (Json.str s) = Except.ok b →
      get_vector_has_points env payload =
        Except.ok (jsonDumps (Json.obj [("has_points", Json.bool b)]))) := by
  have h := get_vector_has_points_eval env payload (Json.str s) hget
  constructor
  · rintro (rfl | ⟨e, he⟩)
    · exact h
    · rw [he] at h
      cases hv : (Json.str s).truthy
      · rw [hv] at h
        simpa using h
      · rw [hv] at h
        simpa using h
  · intro b hs hb
    rw [hb] at h
    have hv : (Json.str s).truthy = true := by
      simp [Json.truthy]
      exact hs
    rw [hv] at h
    simpa using h

/-- C3 witness: a probe that reports no point geometries on the sample
environment. -/
theorem c3_has_points_witness :
    get_vector_has_points sampleEnv
        (Json.obj [("vector_path", Json.str "lines.shp")]) =
      Except.ok (jsonDumps (Json.obj [("has_points", Json.bool false)])) :=
  (c3_has_points_best_effort sampleEnv
    (Json.obj [("vector_path", Json.str "lines.shp")]) "lines.shp" rfl).2
    false (by decide) rfl

/-- C9: when the payload of the colnames or vector_has_points route is not
an object, or is an object without the vector_path key, the subscript
lookup raises before the best-effort guard, so the error propagates instead
of the default response. -/
theorem c9_missing_vector_path_propagates (env : Env) (payload : Json) :
    ((∀ fields : List (String × Json), payload ≠ Json.obj fields) →
      get_vector_colnames env payload =
        Except.error (Err.typeError "not subscriptable") ∧
      get_vector_has_points env payload =
        Except.error (Err.typeError "not subscriptable")) ∧
    (∀ fields : List (String × Json), payload = Json.obj fields →
      (∀ p ∈ fields, p.1 ≠ "vector_path") →
      get_vector_colnames env payload = Except.error (Err.keyError "vector_path") ∧
      get_vector_has_points env payload =
        Except.error (Err.keyError "vector_path")) := by
  constructor
  · intro hno
    have hget : payload.getItem "vector_path" =
        Except.error (Err.typeError "not subscriptable") := by
      cases payload with
      | obj fields => exact absurd rfl (hno fields)
      | null => rfl
      | bool b => rfl
      | num n => rfl
      | str s => rfl
      | arr items => rfl
    exact ⟨get_vector_colnames_propagates env payload _ hget,
      get_vector_has_points_propagates env payload _ hget⟩
  · rintro fields rfl hkeys
    have hfind : fields.find? (fun p => p.1 == "vector_path") = none := by
      rw [List.find?_eq_none]
      intro p hp
      simpa using hkeys p hp
    have hget : (Json.obj fields).getItem "vector_path" =
        Except.error (Err.keyError "vector_path") := by
      simp [Json.getItem, dictGet, hfind]
    exact ⟨get_vector_colnames_propagates env _ _ hget,
      get_vector_has_points_propagates env _ _ hget⟩

/-- C9 witness: the empty-object payload on the sample environment. -/
theorem c9_missing_vector_path_witness :
    get_vector_colnames sampleEnv (Json.obj []) =
      Except.error (Err.keyError "vector_path") ∧
    get_vector_has_points sampleEnv (Json.obj []) =
      Except.error (Err.keyError "vector_path") :=
  (c9_missing_vector_path_propagates sampleEnv (Json.obj [])).2 [] rfl
    (fun p hp => absurd hp (List.not_mem_nil p))

/-- C4: the getspec route fails with the propagated KeyError for every model
key absent from the registry, and returns the JSON encoding of the loaded
module's ARGS_SPEC for every registered key whose module loads. -/
theorem c4_getspec_lookup (env : Env) (key : String) :
    ((∀ p ∈ env.model_uis, p.1 ≠ key) →
      get_invest_getspec env key = Except.error (Err.keyError key)) ∧
    (∀ meta : ModelUIMeta, ∀ m : Module,
      dictGet env.model_uis key = Except.ok meta →
      env.import_module meta.pyname = Except.ok m →
      get_invest_getspec env key = Except.ok (jsonDumps m.args_spec)) := by
  constructor
  · intro habs
    have hfind : env.model_uis.find? (fun p => p.1 == key) = none := by
      rw [List.find?_eq_none]
      intro p hp
      simpa using habs p hp
    have hget : dictGet env.model_uis key = Except.error (Err.keyError key) := by
      simp [dictGet, hfind]
    unfold get_invest_getspec
    rw [hget]
    rfl
  · intro meta m hmeta himp
    unfold get_invest_getspec
    rw [hmeta]
    show Except.bind (env.import_module meta.pyname) _ = _
    rw [himp]
    rfl

/-- C4 witness: the registered sample key and an unregistered one. -/
theorem c4_getspec_witness :
    get_invest_getspec sampleEnv "carbon" =
      Except.ok (jsonDumps carbonModule.args_spec) :=
  (c4_getspec_lookup sampleEnv "carbon").2 carbonMeta carbonModule rfl rfl

/-- C5: the validate route calls the named module's validate function with
the JSON-parsed args mapping and with limit_to equal to the payload field
when present and None when absent, returns the JSON encoding of the result,
and propagates any exception of the module load or the validation call. -/
theorem c5_validate_delegates (env : Env) (payload : Json) (tm argsStr : String)
    (args_dict : Json)
    (htm : payload.getItem "model_module" = Except.ok (Json.str tm))
    (hargs : payload.getItem "args" = Except.ok (Json.str argsStr))
    (hload : env.json_loads argsStr = Except.ok args_dict) :
    (∀ v : Json, payload.getItem "limit_to" = Except.ok v →
      get_invest_validate env payload = (env.import_module tm).bind
        (fun m => (m.validate args_dict v).map jsonDumps)) ∧
    (payload.getItem "limit_to" = Except.error (Err.keyError "limit_to") →
      get_invest_validate env payload = (env.import_module tm).bind
        (fun m => (m.validate args_dict Json.null).map jsonDumps)) := by
  constructor
  · intro v hv
    unfold get_invest_validate
    rw [htm, hargs]
    show Except.bind (env.json_loads argsStr) _ = _
    rw [hload, hv]
    show Except.bind (env.import_module tm) _ = _
    cases env.import_module tm with
    | error e => rfl
    | ok m =>
      show Except.bind (m.validate args_dict v) _ =
        Except.map jsonDumps (m.validate args_dict v)
      cases m.validate args_dict v with
      | error e => rfl
      | ok r => rfl
  · intro hv
    unfold get_invest_validate
    rw [htm, hargs]
    show Except.bind (env.json_loads argsStr) _ = _
    rw [hload, hv]
    show Except.bind (env.import_module tm) _ = _
    cases env.import_module tm with
    | error e => rfl
    | ok m =>
      show Except.bind (m.validate args_dict Json.null) _ =
        Except.map jsonDumps (m.validate args_dict Json.null)
      cases m.validate args_dict Json.null with
      | error e => rfl
      | ok r => rfl

/-- C5 witness: the sample payload without limit_to on the sample
environment; the sample validate function returns the empty issue list. -/
theorem c5_validate_witness :
    get_invest_validate sampleEnv (Json.obj [
        ("model_module", Json.str "natcap.invest.carbon"),
        ("args", Json.str "\x7b\x7d")]) = Except.ok (jsonDumps (Json.arr [])) :=
  (c5_validate_delegates sampleEnv
    (Json.obj [("model_module", Json.str "natcap.invest.carbon"),
      ("args", Json.str "\x7b\x7d")])
    "natcap.invest.carbon" "\x7b\x7d" (Json.obj []) rfl rfl rfl).2 rfl

/-- C6: when the datastack file parses and its model name is registered, the
response is the object with exactly the six fields, run/human names taken
from the registry entry; when the model name is not registered the handler
fails with the propagated KeyError. -/
theorem c6_datastack_response (registry : List (String × UIMeta)) (fs : FS)
    (filepath stack_type : String) (info : DatastackFile)
    (hinfo : get_datastack_info fs filepath = Except.ok (stack_type, info)) :
    (∀ meta : UIMeta, dictGet registry info.model_name = Except.ok meta →
      post_datastack_file registry fs filepath = Except.ok (jsonDumps (Json.obj [
        ("type", Json.str stack_type),
        ("args", info.args),
        ("module_name", Json.str info.model_name),
        ("model_run_name", Json.str meta.run_name),
        ("model_human_name", Json.str meta.human_name),
        ("invest_version", Json.str info.invest_version)]))) ∧
    ((∀ p ∈ registry, p.1 ≠ info.model_name) →
      post_datastack_file registry fs filepath =
        Except.error (Err.keyError info.model_name)) := by
  constructor
  · intro meta hmeta
    unfold post_datastack_file
    rw [hinfo]
    show Except.bind (dictGet registry info.model_name) _ = _
    rw [hmeta]
    rfl
  · intro habs
    have hfind : registry.find? (fun p => p.1 == info.model_name) = none := by
      rw [List.find?_eq_none]
      intro p hp
      simpa using habs p hp
    have hget : dictGet registry info.model_name =
        Except.error (Err.keyError info.model_name) := by
      simp [dictGet, hfind]
    unfold post_datastack_file
    rw [hinfo]
    show Except.bind (dictGet registry info.model_name) _ = _
    rw [hget]
    rfl

/-- C6 witness: a parameter-set file naming the registered sample model. -/
theorem c6_datastack_witness :
    post_datastack_file [("natcap.invest.carbon", UIMeta.mk "carbon" "Carbon Storage")]
        (FS.mk [("stack.json",
          DatastackFile.mk "natcap.invest.carbon" (Json.obj []) "3.9.0")])
        "stack.json" =
      Except.ok (jsonDumps (Json.obj [
        ("type", Json.str "json"),
        ("args", Json.obj []),
        ("module_name", Json.str "natcap.invest.carbon"),
        ("model_run_name", Json.str "carbon"),
        ("model_human_name", Json.str "Carbon Storage"),
        ("invest_version", Json.str "3.9.0")])) :=
  (c6_datastack_response
    [("natcap.invest.carbon", UIMeta.mk "carbon" "Carbon Storage")]
    (FS.mk [("stack.json",
      DatastackFile.mk "natcap.invest.carbon" (Json.obj []) "3.9.0")])
    "stack.json" "json"
    (DatastackFile.mk "natcap.invest.carbon" (Json.obj []) "3.9.0") rfl).1
    (UIMeta.mk "carbon" "Carbon Storage") rfl

/-- C7 counterexample: the claim quantifies over every module name, but a
written parameter-set file whose module name is not a registry key makes
the read-back route fail with KeyError instead of returning the written
model name and args.  The startup registry of the sample environment has
the single key natcap.invest.carbon. -/
theorem c7_roundtrip_counterexample :
    write_parameter_set_file sampleEnv (FS.mk []) (Json.obj [
        ("parameterSetPath", Json.str "params.json"),
        ("moduleName", Json.str "not.a.model"),
        ("args", Json.str "\x7b\x7d"),
        ("relativePaths", Json.bool false)]) =
      Except.ok (FS.mk [("params.json",
        DatastackFile.mk "not.a.model" (Json.obj []) "3.9.0")],
        "parameter set saved") ∧
    post_datastack_file (MODULE_MODELRUN_MAP sampleEnv.model_uis)
        (FS.mk [("params.json",
          DatastackFile.mk "not.a.model" (Json.obj []) "3.9.0")])
        "params.json" =
      Except.error (Err.keyError "not.a.model") :=
  ⟨rfl, rfl⟩

/-- C7 (amended): for every argument mapping, path, and module name that is
a key of the registry, writing the parameter-set file and reading it back
through the datastack route yields the same module_name and args. -/
theorem c7_roundtrip_registered (env : Env) (registry : List (String × UIMeta))
    (fs : FS) (path modulename argsStr : String) (args rel : Json) (meta : UIMeta)
    (hload : env.json_loads argsStr = Except.ok args)
    (hreg : dictGet registry modulename = Except.ok meta) :
    write_parameter_set_file env fs (Json.obj [
        ("parameterSetPath", Json.str path),
        ("moduleName", Json.str modulename),
        ("args", Json.str argsStr),
        ("relativePaths", rel)]) =
      Except.ok (build_parameter_set fs args modulename path rel.truthy
        env.invest_version, "parameter set saved") ∧
    post_datastack_file registry
        (build_parameter_set fs args modulename path rel.truthy env.invest_version)
        path =
      Except.ok (jsonDumps (Json.obj [
        ("type", Json.str "json"),
        ("args", args),
        ("module_name", Json.str modulename),
        ("model_run_name", Json.str meta.run_name),
        ("model_human_name", Json.str meta.human_name),
        ("invest_version", Json.str env.invest_version)])) := by
  constructor
  · unfold write_parameter_set_file
    show Except.bind (env.json_loads argsStr) _ = _
    rw [hload]
    rfl
  · have hfile : get_datastack_info
        (build_parameter_set fs args modulename path rel.truthy env.invest_version)
        path = Except.ok ("json",
          DatastackFile.mk modulename args env.invest_version) := by
      unfold get_datastack_info build_parameter_set
      rw [show (FS.mk (dictInsert fs.files path
        (DatastackFile.mk modulename args env.invest_version))).files =
        dictInsert fs.files path
          (DatastackFile.mk modulename args env.invest_version) from rfl]
      rw [dictGet_insert_self]
    unfold post_datastack_file
    rw [hfile]
    show Except.bind (dictGet registry modulename) _ = _
    rw [hreg]
    rfl

/-- C7 witness: the registered sample model round-trips through write and
read on the sample environment. -/
theorem c7_roundtrip_witness :
    write_parameter_set_file sampleEnv (FS.mk []) (Json.obj [
        ("parameterSetPath", Json.str "params.json"),
        ("moduleName", Json.str "natcap.invest.carbon"),
        ("args", Json.str "\x7b\"a\": 1\x7d"),
        ("relativePaths", Json.bool false)]) =
      Except.ok (build_parameter_set (FS.mk []) (Json.obj [("a", Json.num 1)])
        "natcap.invest.carbon" "params.json" (Json.bool false).truthy
        "3.9.0", "parameter set saved") ∧
    post_datastack_file [("natcap.invest.carbon", UIMeta.mk "carbon" "Carbon Storage")]
        (build_parameter_set (FS.mk []) (Json.obj [("a", Json.num 1)])
          "natcap.invest.carbon" "params.json" (Json.bool false).truthy "3.9.0")
        "params.json" =
      Except.ok (jsonDumps (Json.obj [
        ("type", Json.str "json"),
        ("args", Json.obj [("a", Json.num 1)]),
        ("module_name", Json.str "natcap.invest.carbon"),
        ("model_run_name", Json.str "carbon"),
        ("model_human_name", Json.str "Carbon Storage"),
        ("invest_version", Json.str "3.9.0")])) :=
  c7_roundtrip_registered sampleEnv
    [("natcap.invest.carbon", UIMeta.mk "carbon" "Carbon Storage")]
    (FS.mk []) "params.json" "natcap.invest.carbon" "\x7b\"a\": 1\x7d"
    (Json.obj [("a", Json.num 1)]) (Json.bool false)
    (UIMeta.mk "carbon" "Carbon Storage") rfl rfl

/-- C1: evaluation of save_to_python at failing inputs.  The pformat output
is post-processed by two global character replacements; on the empty
argument mapping the rendered mapping text is an invalid Python dict
display (a syntax error in the generated script), and a brace character
inside a string value is corrupted, so the script does not bind args to a
mapping whose content equals the supplied one. -/
theorem c1_script_args_not_content_equivalent :
    renderScriptArgs (Json.obj []) = "\x7b\n ,\n\x7d" ∧
    parsePyDict (renderScriptArgs (Json.obj [])) = Option.none ∧
    parsePyDict (renderScriptArgs (Json.obj [("a", Json.str "x\x7by")])) =
      Option.some [("a", PyVal.str "x\x7b\n y")] ∧
    toPyVal (Json.str "x\x7by") = Option.some (PyVal.str "x\x7by") ∧
    PyVal.str "x\x7b\n y" ≠ PyVal.str "x\x7by" ∧
    save_to_python sampleEnv [] (Json.obj [
        ("filepath", Json.str "carbon_workspace.py"),
        ("modelname", Json.str "carbon"),
        ("pyname", Json.str "natcap.invest.carbon"),
        ("args", Json.str "\x7b\x7d")]) =
      Except.ok ([("carbon_workspace.py",
        script_template "3.9.0" "Mon Jan  1 00:00:00 2024" "carbon"
          "natcap.invest.carbon" "\x7b\n ,\n\x7d")], "python script saved") :=
  ⟨rfl, rfl, rfl, rfl, by decide, rfl⟩

end UiServer
